import Mathlib

/-!
Verification of the keyboard-backlight dimming daemon (bl-control, src/main.rs).

The development shallowly embeds the relevant parts of the program:

* the input-event decoder thread (24-byte raw records, meta-key latches,
  lock-combo classification, signal emission);
* the libusb interface claim/release discipline around the HID feature-report
  transfers (take_control / release_control / read_brightness_level /
  set_backlight_level), with the outcome of each libusb call treated as an
  external oracle;
* the dimming state machine of the main event loop (signal branch, timeout
  branch with its hardware re-read and the non-linear decay step, and the
  timeout-duration selection).

Machine integers are modelled as Nat; all byte/level values the hardware can
produce are u8 values in [0, 255] and no arithmetic in the program overflows
under the guards it performs, so no modular reduction is needed.
-/

set_option maxHeartbeats 1000000
set_option linter.unusedVariables false

namespace BlControl

/-! ### Constants from src/main.rs lines 14-18

Note that the source defines KEY_LEFT_META and KEY_RIGHT_META to the same
scan code 125 (the real input-event-codes.h value for KEY_RIGHTMETA is 126,
but the source is the authority here). -/

def EV_KEY : Nat := 0x01

def KEY_LEFT_META : Nat := 125

def KEY_RIGHT_META : Nat := 125

def KEY_L : Nat := 38

/-! ### Input Event Decoder (input-reader thread, src/main.rs lines 260-309) -/

/-- The decoded fields of one 24-byte raw input event record.
`in_type` and `code` are u16 values, `value` is a u32 value. -/
structure InputRecord where
  in_type : Nat
  code : Nat
  value : Nat
deriving DecidableEq

/-- Decoding of a 24-byte buffer (entries are u8 byte values) into an input
record, exactly as in src/main.rs lines 282-284: little-endian u16 type from
bytes 16-17, little-endian u16 code from bytes 18-19, little-endian u32 value
from bytes 20-23. -/
def decodeRecord (buf : List Nat) : InputRecord :=
  { in_type := (buf.getD 17 0) <<< 8 ||| (buf.getD 16 0)
  , code := (buf.getD 19 0) <<< 8 ||| (buf.getD 18 0)
  , value := (buf.getD 23 0) <<< 24 ||| (buf.getD 22 0) <<< 16 |||
      (buf.getD 21 0) <<< 8 ||| (buf.getD 20 0) }

/-- The meta-key latch state of the decoder thread
(src/main.rs lines 271-272). -/
structure MetaState where
  meta_l_down : Bool
  meta_r_down : Bool
deriving DecidableEq

/-- Initial latch state: both meta keys up (src/main.rs lines 271-272). -/
def initMeta : MetaState := ⟨false, false⟩

/-- Either meta latch is down. -/
def metaDown (st : MetaState) : Bool :=
  st.meta_l_down || st.meta_r_down

/-- One iteration of the decoder loop body on an already-decoded record
(src/main.rs lines 286-307): update the meta latches, classify the record,
and emit `some 1` (lock combo) or `some 0` (key activity) when the record is
an EV_KEY record, nothing otherwise. -/
def decoderStep (st : MetaState) (r : InputRecord) : MetaState × Option Nat :=
  let st2 :=
    if r.in_type = EV_KEY then
      if r.code = KEY_LEFT_META then { st with meta_l_down := decide (0 < r.value) }
      else if r.code = KEY_RIGHT_META then { st with meta_r_down := decide (0 < r.value) }
      else st
    else st
  let result : Nat :=
    if r.in_type = EV_KEY ∧ r.value = 0 ∧ r.code = KEY_L ∧ (st2.meta_l_down || st2.meta_r_down) = true
    then 1 else 0
  (st2, if r.in_type = EV_KEY then some result else none)

/-- The decoder loop run over a whole trace of decoded records, returning the
final latch state and the list of per-record emissions (`none` = no signal
sent on the channel). -/
def decoderRun (st : MetaState) : List InputRecord → MetaState × List (Option Nat)
  | [] => (st, [])
  | r :: rs =>
    let p := decoderStep st r
    let q := decoderRun p.1 rs
    (q.1, p.2 :: q.2)

/-- A record that updates a meta latch: an EV_KEY record whose code is the
left-meta or right-meta scan code. -/
def isMetaKeyRecord (r : InputRecord) : Bool :=
  decide (r.in_type = EV_KEY ∧ (r.code = KEY_LEFT_META ∨ r.code = KEY_RIGHT_META))

/-- Whether the most recent meta-key EV_KEY record in the trace had
value > 0 (false when the trace has no such record, matching the initial
latch state). -/
def lastMetaDown (trace : List InputRecord) : Bool :=
  trace.foldl (fun acc r => if isMetaKeyRecord r = true then decide (0 < r.value) else acc) false

theorem decoderStep_meta_r_down (st : MetaState) (r : InputRecord) :
    (decoderStep st r).1.meta_r_down = st.meta_r_down := by
  unfold decoderStep
  by_cases ht : r.in_type = EV_KEY
  · by_cases hc : r.code = KEY_LEFT_META
    · simp [ht, hc]
    · have hc2 : ¬ r.code = KEY_RIGHT_META := by
        intro h
        exact hc (h.trans (by decide))
      simp [ht, hc, hc2]
  · simp [ht]

theorem decoderStep_meta_l_down (st : MetaState) (r : InputRecord) :
    (decoderStep st r).1.meta_l_down =
      (if isMetaKeyRecord r = true then decide (0 < r.value) else st.meta_l_down) := by
  unfold decoderStep isMetaKeyRecord
  by_cases ht : r.in_type = EV_KEY
  · by_cases hc : r.code = KEY_LEFT_META
    · simp [ht, hc]
    · have hc2 : ¬ r.code = KEY_RIGHT_META := by
        intro h
        exact hc (h.trans (by decide))
      simp [ht, hc, hc2]
  · simp [ht]

theorem decoderRun_metaDown (trace : List InputRecord) :
    ∀ st : MetaState, st.meta_r_down = false →
      metaDown (decoderRun st trace).1 =
        trace.foldl (fun acc r => if isMetaKeyRecord r = true then decide (0 < r.value) else acc)
          st.meta_l_down := by
  induction trace with
  | nil =>
    intro st h
    simp [decoderRun, metaDown, h]
  | cons r rs ih =>
    intro st h
    have h1 := decoderStep_meta_r_down st r
    rw [h] at h1
    have h2 := decoderStep_meta_l_down st r
    simp only [decoderRun, List.foldl_cons]
    rw [ih (decoderStep st r).1 h1, h2]

/-- Claim C3: over any sequence of decoded 24-byte input records, a meta key
is latched down exactly when the most recent meta-key EV_KEY record had
value > 0; and each record emits a signal exactly when it is an EV_KEY
record, with value 1 (LockCombo) exactly when the record is an EV_KEY record
with value 0 and code KEY_L while either meta latch is down, and value 0
(KeyActivity) otherwise. -/
theorem claim_C3 (trace : List InputRecord) (st : MetaState) (r : InputRecord) :
    metaDown (decoderRun initMeta trace).1 = lastMetaDown trace ∧
    (decoderStep st r).2 =
      (if r.in_type = EV_KEY then
        some (if r.value = 0 ∧ r.code = KEY_L ∧ metaDown st = true then 1 else 0)
       else none) := by
  constructor
  · exact decoderRun_metaDown trace initMeta rfl
  · unfold decoderStep
    by_cases ht : r.in_type = EV_KEY
    · by_cases hc : r.code = KEY_LEFT_META
      · have hcl : ¬ (KEY_LEFT_META = KEY_L) := by decide
        simp [ht, hc, hcl]
      · have hc2 : ¬ r.code = KEY_RIGHT_META := by
          intro h
          exact hc (h.trans (by decide))
        simp [ht, hc, hc2, metaDown]
    · simp [ht]

/-! ### HID Brightness Channel and the libusb claim/release discipline
(src/main.rs lines 98-212)

The kernel-driver/interface ownership state of the USB device is modelled
explicitly; the success or failure of each libusb call made inside one
function invocation is an external oracle (`UsbOutcome`).  On success,
`kernel_driver_active` reports the actual ownership state,
`detach_kernel_driver` / `attach_kernel_driver` toggle it, and
`claim_interface` / `release_interface` toggle the claim state; a failed call
leaves the state unchanged (mirroring libusb semantics). -/

/-- Driver-ownership state of the USB device. -/
structure UsbState where
  driver_attached : Bool
  interface_claimed : Bool
deriving DecidableEq

/-- Outcome oracle for the libusb calls made during a single
read_brightness_level or set_backlight_level invocation: whether each call
succeeds, and the brightness byte (data[4]) produced by a successful
read_control. -/
structure UsbOutcome where
  kdaOk : Bool
  detachOk : Bool
  claimOk : Bool
  writeOk : Bool
  readOk : Bool
  releaseOk : Bool
  attachOk : Bool
  readByte : Nat
deriving DecidableEq

/-- take_control (src/main.rs lines 98-120): query kernel_driver_active; on
query failure return false; if the driver is active, detach it and return
true on success and false on failure; if not active, return false.  The
returned flag is the `is_active` value later passed to release_control. -/
def take_control (o : UsbOutcome) (u : UsbState) : Bool × UsbState :=
  if o.kdaOk then
    if u.driver_attached then
      if o.detachOk then (true, { u with driver_attached := false })
      else (false, u)
    else (false, u)
  else (false, u)

/-- release_control (src/main.rs lines 124-136): release the interface
(failure logged and ignored), then re-attach the kernel driver exactly when
`is_active` is set (failure logged and ignored). -/
def release_control (o : UsbOutcome) (u : UsbState) (is_active : Bool) : UsbState :=
  let u2 := if o.releaseOk then { u with interface_claimed := false } else u
  if is_active then
    if o.attachOk then { u2 with driver_attached := true } else u2
  else u2

/-- read_brightness_level (src/main.rs lines 140-182): take_control, then
claim_interface (early return of the error on failure), write_control of the
get-effect report (early return on failure), read_control of the response
(early return on failure), release_control, and return data[4].  Note that
the three early returns skip release_control. -/
def read_brightness_level (o : UsbOutcome) (u : UsbState) :
    Except String Nat × UsbState :=
  let p := take_control o u
  if o.claimOk then
    let u2 := { p.2 with interface_claimed := true }
    if o.writeOk then
      if o.readOk then
        (Except.ok o.readByte, release_control o u2 p.1)
      else (Except.error "read_control failed", u2)
    else (Except.error "write_control failed", u2)
  else (Except.error "claim_interface failed", p.2)

/-- set_backlight_level (src/main.rs lines 186-212): take_control, then
claim_interface (early return on failure), write_control of the set-effect
report carrying `level` (failure logged and swallowed), release_control.
The write failure does not skip release_control, but a claim failure
does. -/
def set_backlight_level (o : UsbOutcome) (u : UsbState) (level : Nat) : UsbState :=
  let p := take_control o u
  if o.claimOk then
    release_control o { p.2 with interface_claimed := true } p.1
  else p.2

/-- Claim C2 counterexample: starting with the kernel driver attached and the
interface unclaimed, if every libusb call succeeds except the write_control
transfer, read_brightness_level exits on the transfer-failure path with the
kernel driver still detached and the interface still claimed — the device is
not left in the driver-ownership state it was found in, contradicting the
claim that this holds on every exit path. -/
theorem claim_C2_counterexample :
    (read_brightness_level ⟨true, true, true, false, true, true, true, 0⟩
        ⟨true, false⟩).2.driver_attached = false ∧
    (⟨true, false⟩ : UsbState).driver_attached = true ∧
    (read_brightness_level ⟨true, true, true, false, true, true, true, 0⟩
        ⟨true, false⟩).2.interface_claimed = true := by
  decide

/-- Claim C2 (amended): when claim_interface, release_interface and
attach_kernel_driver succeed, then on the success path of
read_brightness_level (both transfers succeed) and on every
set_backlight_level path that passes the claim (the write may fail), the
interface ends released and the kernel driver is re-attached exactly when it
was detached by take_control, leaving the driver-ownership state as found.
The early-return paths (claim failure in either function, transfer failure in
read_brightness_level) skip release_control, as the counterexample shows. -/
theorem claim_C2_amended (o : UsbOutcome) (u : UsbState) (lvl : Nat)
    (hclaim : o.claimOk = true) (hrel : o.releaseOk = true) (hatt : o.attachOk = true) :
    ((o.writeOk = true → o.readOk = true →
        ((read_brightness_level o u).2.driver_attached = u.driver_attached ∧
         (read_brightness_level o u).2.interface_claimed = false)) ∧
     ((set_backlight_level o u lvl).driver_attached = u.driver_attached ∧
      (set_backlight_level o u lvl).interface_claimed = false)) := by
  obtain ⟨kda, det, clm, wr, rd, rel, att, rb⟩ := o
  obtain ⟨da, ic⟩ := u
  simp only at hclaim hrel hatt
  subst hclaim hrel hatt
  constructor
  · intro hwr hrd
    simp only at hwr hrd
    subst hwr hrd
    cases kda <;> cases det <;> cases da <;>
      simp [read_brightness_level, take_control, release_control]
  · cases kda <;> cases det <;> cases da <;>
      simp [set_backlight_level, take_control, release_control]

/-- Witness for claim_C2_amended at a concrete outcome and state: all libusb
calls succeed, driver initially attached, interface initially unclaimed. -/
theorem claim_C2_witness :
    (read_brightness_level ⟨true, true, true, true, true, true, true, 42⟩
        ⟨true, false⟩).2.driver_attached = (⟨true, false⟩ : UsbState).driver_attached ∧
    (read_brightness_level ⟨true, true, true, true, true, true, true, 42⟩
        ⟨true, false⟩).2.interface_claimed = false :=
  (claim_C2_amended ⟨true, true, true, true, true, true, true, 42⟩ ⟨true, false⟩ 7
    rfl rfl rfl).1 rfl rfl

/-! ### Dimming State Machine (main event loop, src/main.rs lines 216-426)

The loop variables are `level` (the claim's current_level), `requested_level`,
`dimming`, `is_active` and `ignore_next`.  Hardware writes performed by an
iteration are collected as the list of levels passed to set_backlight_level;
the outcome of the hardware brightness re-read is an `Option Nat` input
(`none` models a read error), and the value received from the signal channel
is an `Option Nat` (`none` models a closed channel, on which the source calls
`Option::unwrap`). -/

/-- The state of the dimming event loop (src/main.rs lines 246-327):
`level` is the current backlight level last manipulated by the loop,
`requested_level` the level the user is believed to have chosen, `dimming`
and `is_active` the phase flags, `ignore_next` the number of future key
events to ignore. -/
structure DimState where
  level : Nat
  requested_level : Nat
  dimming : Bool
  is_active : Bool
  ignore_next : Nat
deriving DecidableEq

/-- The loop state right after startup (src/main.rs lines 246-327): both
levels come from the startup hardware read (50 on read failure), the
backlight has just been written with that level, dimming is off, the machine
is active, and no events are ignored. -/
def initState (startupRead : Option Nat) : DimState :=
  match startupRead with
  | some l => ⟨l, l, false, true, 0⟩
  | none => ⟨50, 50, false, true, 0⟩

/-- The non-linear decay of one timeout step (src/main.rs lines 406-412):
subtract 2 at levels ≥ 10, subtract 1 at levels ≥ 1, leave 0 unchanged. -/
def decayLevel (level : Nat) : Nat :=
  if 10 ≤ level then level - 2
  else if 1 ≤ level then level - 1
  else level

/-- The decay part of the timeout branch (src/main.rs lines 404-423): when
the level is non-zero, step it down, write the new level to hardware only
when it is ≤ 50, and leave the Dimming phase when the new level is 0. -/
def decayStep (t : DimState) : DimState × List Nat :=
  if t.level ≠ 0 then
    let lvl := decayLevel t.level
    let writes := if lvl ≤ 50 then [lvl] else []
    let t2 := { t with level := lvl }
    (if t2.level = 0 then { t2 with dimming := false } else t2, writes)
  else (t, [])

/-- The hardware re-read part of the timeout branch (src/main.rs lines
383-402): when not already dimming, re-read the brightness into both
requested_level and level (on read failure, set requested_level to the
current level instead), then enter Dimming when requested_level > 0. -/
def rereadStep (readRes : Option Nat) (s : DimState) : DimState :=
  if !s.dimming then
    let s2 :=
      match readRes with
      | some l => { s with requested_level := l, level := l }
      | none => { s with requested_level := s.level }
    if 0 < s2.requested_level then { s2 with dimming := true } else s2
  else s

/-- The whole timeout branch (src/main.rs lines 378-423): mark inactive,
re-read when not dimming, then decay. -/
def timeoutStep (readRes : Option Nat) (s : DimState) : DimState × List Nat :=
  decayStep (rereadStep readRes { s with is_active := false })

/-- The ordinary-activity arm of the signal branch (src/main.rs lines
365-373): become active, stop dimming, and when the level differs from the
requested level restore it in one hardware write. -/
def activityStep (s : DimState) : DimState × List Nat :=
  let st := { s with is_active := true, dimming := false }
  if st.level ≠ st.requested_level then
    ({ st with level := st.requested_level }, [st.requested_level])
  else (st, [])

/-- The signal branch (src/main.rs lines 352-375): absorb the event when
ignore_next > 0; otherwise, when the lock feature is enabled, unwrap the
received value (a closed channel panics, modelled as `Except.error`) and on
a lock-combo value set ignore_next to 1 and enter Dimming; any other case is
ordinary activity.  The `lockFlag && lock.unwrap() == 1` test short-circuits:
with the lock feature disabled the received value is never unwrapped. -/
def signalStep (lockFlag : Bool) (recvd : Option Nat) (s : DimState) :
    Except Unit (DimState × List Nat) :=
  if 0 < s.ignore_next then
    Except.ok ({ s with ignore_next := s.ignore_next - 1 }, [])
  else
    if lockFlag then
      match recvd with
      | none => Except.error ()
      | some v =>
        if v = 1 then Except.ok ({ s with ignore_next := 1, dimming := true }, [])
        else Except.ok (activityStep s)
    else Except.ok (activityStep s)

/-- The two ways one iteration of the event loop can wake up
(src/main.rs lines 350-425). -/
inductive LoopEvent where
  | signal (recvd : Option Nat)
  | timeout (readRes : Option Nat)
deriving DecidableEq

/-- One full iteration of the event loop body, returning the next state and
the levels written to hardware during the iteration, or an error when the
iteration panics. -/
def loopStep (lockFlag : Bool) (ev : LoopEvent) (s : DimState) :
    Except Unit (DimState × List Nat) :=
  match ev with
  | LoopEvent.signal recvd => signalStep lockFlag recvd s
  | LoopEvent.timeout readRes => Except.ok (timeoutStep readRes s)

/-- The timeout duration in milliseconds raced against the signal channel
(src/main.rs lines 331-343): 100 ms by default (the dimming pace), and when
not dimming, 3600000 ms while inactive and the user-configured timeout
(already converted to milliseconds, the value of
`(args.timeout * 1000.0) as u64`) while active. -/
def timeoutMillis (userTimeoutMs : Nat) (dimming is_active : Bool) : Nat :=
  if !dimming then
    if !is_active then 3600000 else userTimeoutMs
  else 100

theorem decayStep_snd (t : DimState) :
    (decayStep t).2 =
      (if t.level ≠ 0 ∧ decayLevel t.level ≤ 50 then [decayLevel t.level] else []) := by
  unfold decayStep
  split_ifs <;> simp_all

theorem decayStep_level (t : DimState) :
    (decayStep t).1.level = (if t.level ≠ 0 then decayLevel t.level else t.level) := by
  unfold decayStep
  by_cases h0 : t.level ≠ 0
  · simp only [if_pos h0]
    by_cases hz : decayLevel t.level = 0
    · simp [hz, h0]
    · simp [hz, h0]
  · simp [h0]

theorem decayStep_dimming (t : DimState) :
    (decayStep t).1.dimming =
      (if t.level ≠ 0 ∧ decayLevel t.level = 0 then false else t.dimming) := by
  unfold decayStep
  by_cases h0 : t.level ≠ 0
  · simp only [if_pos h0]
    by_cases hz : decayLevel t.level = 0
    · simp [hz, h0]
    · simp [hz, h0]
  · simp [h0]

theorem decayLevel_le (level : Nat) : decayLevel level ≤ level := by
  unfold decayLevel
  split_ifs <;> omega

/-- Claim C5: for all brightness levels L in [1, 50], one timeout decay step
yields L-2 when L ≥ 10 and L-1 when 1 ≤ L ≤ 9 (the `+ 2` / `+ 1` equalities
show the subtraction is exact, so the level never goes below 0); the stepped
level is written when the state level is L (being ≤ 50), and in general a
stepped-down level is written only when it is ≤ 50. -/
theorem claim_C5 (L : Nat) (h1 : 1 ≤ L) (h50 : L ≤ 50) :
    (10 ≤ L → decayLevel L + 2 = L) ∧
    (L ≤ 9 → decayLevel L + 1 = L) ∧
    (∀ s : DimState, s.level = L → (decayStep s).2 = [decayLevel L]) ∧
    (∀ (s : DimState) (w : Nat), w ∈ (decayStep s).2 → w ≤ 50) := by
  refine ⟨?_, ?_, ?_, ?_⟩
  · intro h10
    unfold decayLevel
    rw [if_pos h10]
    omega
  · intro h9
    unfold decayLevel
    rw [if_neg (by omega), if_pos h1]
    omega
  · intro s hs
    have hle : decayLevel L ≤ 50 := by
      unfold decayLevel
      split_ifs <;> omega
    rw [decayStep_snd, hs, if_pos ⟨by omega, hle⟩]
  · intro s w hw
    rw [decayStep_snd] at hw
    split_ifs at hw with h
    · simp at hw
      omega
    · simp at hw

/-- Witness for claim_C5 at the concrete level L = 12. -/
theorem claim_C5_witness : 1 ≤ 12 ∧ 12 ≤ 50 ∧ decayLevel 12 + 2 = 12 :=
  ⟨by decide, by decide, (claim_C5 12 (by decide) (by decide)).1 (by decide)⟩

/-- Claim C8: on a timeout while not already dimming, the re-read step puts a
successful hardware read result l into both requested_level and level, and
enters Dimming when l > 0; on a failed read it sets requested_level to the
current level, which the re-read step leaves unchanged. -/
theorem claim_C8 (readRes : Option Nat) (s : DimState) (hd : s.dimming = false) :
    (∀ l, readRes = some l →
        ((rereadStep readRes s).requested_level = l ∧
         (rereadStep readRes s).level = l ∧
         (0 < l → (rereadStep readRes s).dimming = true))) ∧
    (readRes = none →
        ((rereadStep readRes s).requested_level = s.level ∧
         (rereadStep readRes s).level = s.level)) := by
  constructor
  · intro l hl
    subst hl
    unfold rereadStep
    rw [hd]
    by_cases hp : 0 < l
    · simp [hp]
    · simp [hp]
  · intro hn
    subst hn
    unfold rereadStep
    rw [hd]
    by_cases hp : 0 < s.level
    · simp [hp]
    · simp [hp]

/-- Witness for claim_C8: a successful re-read of 5 from the startup state
with level 10. -/
theorem claim_C8_witness :
    (rereadStep (some 5) (initState (some 10))).requested_level = 5 ∧
    (rereadStep (some 5) (initState (some 10))).level = 5 :=
  ⟨((claim_C8 (some 5) (initState (some 10)) rfl).1 5 rfl).1,
   ((claim_C8 (some 5) (initState (some 10)) rfl).1 5 rfl).2.1⟩

/-- Claim C9: the timeout raced against the signal channel is 100 ms while
dimming, the user-configured timeout (seconds converted to milliseconds,
modelled as the value of `(args.timeout * 1000.0) as u64`) while active and
not dimming, and 3600000 ms (1 hour) while inactive and not dimming. -/
theorem claim_C9 (userTimeoutMs : Nat) (a : Bool) :
    timeoutMillis userTimeoutMs true a = 100 ∧
    timeoutMillis userTimeoutMs false true = userTimeoutMs ∧
    timeoutMillis userTimeoutMs false false = 3600000 :=
  ⟨rfl, rfl, rfl⟩

/-- Claim C10 (code bug): after the decoder thread dies from a read failure,
its sender is dropped and the channel yields `none`.  With the lock feature
disabled, `args.lock && lock.unwrap() == 1` short-circuits, so the received
value is never unwrapped: the iteration completes normally, treating the
closed channel as ordinary key activity — the process does not abort, it
keeps running in exactly the degraded mode the claim rules out.  Only with
the lock feature enabled does the unwrap panic the loop. -/
theorem claim_C10 :
    signalStep false none (initState (some 50)) =
      Except.ok (initState (some 50), []) ∧
    signalStep true none (initState (some 50)) = Except.error () :=
  ⟨rfl, rfl⟩

theorem activityStep_spec (s : DimState) :
    activityStep s =
      ({ s with is_active := true, dimming := false, level := s.requested_level },
        if s.level = s.requested_level then [] else [s.requested_level]) := by
  obtain ⟨lv, rq, dm, ac, ig⟩ := s
  unfold activityStep
  by_cases he : lv = rq
  · subst he
    simp
  · simp [he]

/-- Claim C7: a KeyActivity signal (or any received value when the lock
feature is disabled) while ignore_next is 0 makes the machine active and not
dimming, and restores level to requested_level with one hardware write when
they differ, with no write when they are equal. -/
theorem claim_C7 (lockFlag : Bool) (recvd : Option Nat) (s : DimState)
    (hig : s.ignore_next = 0) (hcase : lockFlag = false ∨ recvd = some 0) :
    signalStep lockFlag recvd s =
      Except.ok ({ s with is_active := true, dimming := false, level := s.requested_level },
        if s.level = s.requested_level then [] else [s.requested_level]) := by
  have hig2 : ¬ 0 < s.ignore_next := by omega
  unfold signalStep
  rw [if_neg hig2]
  rcases hcase with h | h
  · subst h
    simp [activityStep_spec]
  · subst h
    by_cases hl : lockFlag = true
    · rw [if_pos hl]
      simp [activityStep_spec]
    · rw [if_neg hl]
      simp [activityStep_spec]

/-- Witness for claim_C7: activity received at level 20 with requested level
30 while dimming. -/
theorem claim_C7_witness :
    signalStep false (some 0) ⟨20, 30, true, false, 0⟩ =
      Except.ok (⟨30, 30, false, true, 0⟩, [30]) := by
  have h := claim_C7 false (some 0) ⟨20, 30, true, false, 0⟩ rfl (Or.inl rfl)
  simpa using h

/-- Claim C4 counterexample: with the lock feature enabled and
ignore_next = 0, a LockCombo signal received in the Active state yields a
state with is_active still true — not the claimed Dimming state
(is_active = false, is_dimming = true); the lock branch never clears
is_active (src/main.rs lines 358-363). -/
theorem claim_C4_counterexample :
    signalStep true (some 1) (initState (some 10)) =
      Except.ok (⟨10, 10, true, true, 1⟩, []) ∧
    ¬ ((⟨10, 10, true, true, 1⟩ : DimState).is_active = false) :=
  ⟨rfl, by decide⟩

/-- Claim C4 (amended): with the lock feature enabled and ignore_next = 0, a
LockCombo signal sets ignore_next = 1 and is_dimming = true immediately,
without a hardware write and leaving is_active (and everything else)
unchanged — the canonical Dimming state (is_active = false) is only reached
at the next timeout; and while ignore_next > 0 any one received signal is
absorbed, decrementing the counter and changing nothing else. -/
theorem claim_C4_amended (s : DimState) (recvd : Option Nat) :
    (s.ignore_next = 0 → recvd = some 1 →
        signalStep true recvd s =
          Except.ok ({ s with ignore_next := 1, dimming := true }, [])) ∧
    (∀ lockFlag : Bool, 0 < s.ignore_next →
        signalStep lockFlag recvd s =
          Except.ok ({ s with ignore_next := s.ignore_next - 1 }, [])) := by
  constructor
  · intro hig hr
    subst hr
    have hig2 : ¬ 0 < s.ignore_next := by omega
    unfold signalStep
    rw [if_neg hig2]
    simp
  · intro lockFlag hig
    unfold signalStep
    rw [if_pos hig]

/-- Witness for claim_C4_amended: the lock combo fires from the startup
state, and the following signal is absorbed. -/
theorem claim_C4_witness :
    signalStep true (some 1) (initState (some 10)) =
      Except.ok (⟨10, 10, true, true, 1⟩, []) ∧
    signalStep true (some 0) ⟨10, 10, true, true, 1⟩ =
      Except.ok (⟨10, 10, true, true, 0⟩, []) := by
  constructor
  · have h := (claim_C4_amended (initState (some 10)) (some 1)).1 rfl rfl
    simpa using h
  · have h := (claim_C4_amended ⟨10, 10, true, true, 1⟩ (some 0)).2 true (by decide)
    simpa using h

theorem rereadStep_dimming_true (readRes : Option Nat) (t : DimState)
    (h : t.dimming = true) : rereadStep readRes t = t := by
  unfold rereadStep
  rw [h]
  simp

/-- Claim C6: while Dimming, one timeout iteration never increases the level
(so the level is monotonically non-increasing across successive timeout
iterations), Dimming persists while the level has not reached 0, Dimming
stops exactly as the level reaches 0, and a timeout whose re-read step leaves
a zero level performs no hardware write. -/
theorem claim_C6 (s : DimState) (readRes : Option Nat) :
    (s.dimming = true →
        ((timeoutStep readRes s).1.level ≤ s.level ∧
         ((timeoutStep readRes s).1.level ≠ 0 → (timeoutStep readRes s).1.dimming = true) ∧
         (s.level ≠ 0 → (timeoutStep readRes s).1.level = 0 →
            (timeoutStep readRes s).1.dimming = false))) ∧
    (s.level = 0 → (rereadStep readRes { s with is_active := false }).level = 0 →
        (timeoutStep readRes s).2 = []) := by
  constructor
  · intro hd
    have hre : rereadStep readRes { s with is_active := false } =
        { s with is_active := false } :=
      rereadStep_dimming_true readRes _ (by simpa using hd)
    unfold timeoutStep
    rw [hre]
    refine ⟨?_, ?_, ?_⟩
    · rw [decayStep_level]
      split_ifs with h0
      · exact le_trans (decayLevel_le _) (by simp)
      · simp
    · intro hne
      rw [decayStep_level] at hne
      rw [decayStep_dimming]
      split_ifs with hc
      · exfalso
        rw [if_pos hc.1] at hne
        exact hne hc.2
      · simpa using hd
    · intro hs0 hz
      rw [decayStep_level] at hz
      rw [decayStep_dimming]
      have ht0 : ({ s with is_active := false } : DimState).level ≠ 0 := by simpa using hs0
      rw [if_pos ht0] at hz
      rw [if_pos ⟨ht0, hz⟩]
  · intro hs0 hz
    unfold timeoutStep
    rw [decayStep_snd, if_neg (fun hc => hc.1 hz)]

/-- Witness for claim_C6: one dimming timeout from level 12. -/
theorem claim_C6_witness :
    (timeoutStep none ⟨12, 12, true, false, 0⟩).1.level ≤ 12 :=
  ((claim_C6 ⟨12, 12, true, false, 0⟩ none).1 rfl).1

theorem rereadStep_level_change (readRes : Option Nat) (t : DimState)
    (h : (rereadStep readRes t).level ≠ t.level) :
    t.dimming = false ∧ ∃ l, readRes = some l ∧ (rereadStep readRes t).level = l := by
  by_cases hd : t.dimming = true
  · rw [rereadStep_dimming_true readRes t hd] at h
    exact absurd rfl h
  · have hd2 : t.dimming = false := by simpa using hd
    refine ⟨hd2, ?_⟩
    cases readRes with
    | none =>
      exfalso
      apply h
      unfold rereadStep
      rw [hd2]
      by_cases hp : 0 < t.level <;> simp [hp]
    | some l =>
      refine ⟨l, rfl, ?_⟩
      unfold rereadStep
      rw [hd2]
      by_cases hp : 0 < l <;> simp [hp]

theorem activity_level_mem (s : DimState)
    (hne : (activityStep s).1.level ≠ s.level) :
    (activityStep s).1.level ∈ (activityStep s).2 ∨ 50 < (activityStep s).1.level := by
  left
  rw [activityStep_spec]
  by_cases he : s.level = s.requested_level
  · exfalso
    apply hne
    rw [activityStep_spec]
    simp [he]
  · simp [he]

theorem timeoutStep_case (readRes : Option Nat) (s : DimState)
    (hne : (timeoutStep readRes s).1.level ≠ s.level) :
    (s.dimming = false ∧ ∃ l, readRes = some l ∧ (timeoutStep readRes s).1.level = l) ∨
      (timeoutStep readRes s).1.level ∈ (timeoutStep readRes s).2 ∨
      50 < (timeoutStep readRes s).1.level := by
  unfold timeoutStep at *
  by_cases h0 : (rereadStep readRes { s with is_active := false }).level = 0
  · have hd : decayStep (rereadStep readRes { s with is_active := false }) =
        (rereadStep readRes { s with is_active := false }, []) := by
      unfold decayStep
      rw [if_neg (fun hc => hc h0)]
    rw [hd] at hne ⊢
    left
    have hne2 : (rereadStep readRes { s with is_active := false }).level ≠
        ({ s with is_active := false } : DimState).level := hne
    obtain ⟨hdim, l, hrl, hlev⟩ := rereadStep_level_change readRes _ hne2
    exact ⟨by simpa using hdim, l, hrl, hlev⟩
  · right
    rw [decayStep_snd, decayStep_level, if_pos h0]
    by_cases hle : decayLevel (rereadStep readRes { s with is_active := false }).level ≤ 50
    · left
      rw [if_pos ⟨h0, hle⟩]
      simp
    · right
      omega

/-- The level-mirrors-hardware invariant of claim C1, as one iteration step
property: whenever an iteration changes the loop level other than by
re-synchronising it from a successful hardware read, the new level is among
the levels written to hardware in that same iteration. -/
def levelMirrorsWrites (lockFlag : Bool) (ev : LoopEvent) (s : DimState) : Prop :=
  ∀ p : DimState × List Nat, loopStep lockFlag ev s = Except.ok p →
    p.1.level ≠ s.level →
    (s.dimming = false ∧ ∃ l, ev = LoopEvent.timeout (some l) ∧ p.1.level = l) ∨
      p.1.level ∈ p.2

/-- Claim C1 counterexample: from the reachable startup state with level 10,
a timeout whose hardware re-read returns the corrupt value 60 steps the level
down to 58 (not a re-synchronised read value) without any hardware write,
because the `level <= 50` write guard suppresses the write — so the loop
level no longer mirrors what was last written to hardware. -/
theorem claim_C1_counterexample :
    ¬ levelMirrorsWrites false (LoopEvent.timeout (some 60)) (initState (some 10)) := by
  intro h
  have h2 := h (⟨58, 60, true, false, 0⟩, []) rfl (by decide)
  rcases h2 with ⟨hdim, l, hl, hv⟩ | hmem
  · injection hl with hl2
    injection hl2 with hl3
    simp only at hv
    omega
  · simp at hmem

/-- Claim C1 (amended): whenever an iteration of the event loop changes the
loop level other than by re-synchronising it from a successful hardware read,
the new level is written to hardware in that same iteration or exceeds 50 —
a stepped-down level above 50 (possible only after a corrupt hardware read
above 52) is deliberately not written because of the `level <= 50` guard. -/
theorem claim_C1_amended (lockFlag : Bool) (ev : LoopEvent) (s : DimState)
    (p : DimState × List Nat)
    (hstep : loopStep lockFlag ev s = Except.ok p)
    (hne : p.1.level ≠ s.level) :
    (s.dimming = false ∧ ∃ l, ev = LoopEvent.timeout (some l) ∧ p.1.level = l) ∨
      p.1.level ∈ p.2 ∨ 50 < p.1.level := by
  cases ev with
  | signal recvd =>
    right
    simp only [loopStep] at hstep
    unfold signalStep at hstep
    by_cases hig : 0 < s.ignore_next
    · rw [if_pos hig] at hstep
      injection hstep with h
      subst h
      exact absurd rfl hne
    · rw [if_neg hig] at hstep
      by_cases hl : lockFlag = true
      · rw [if_pos hl] at hstep
        cases recvd with
        | none => exact Except.noConfusion hstep
        | some v =>
          dsimp only at hstep
          by_cases hv : v = 1
          · rw [if_pos hv] at hstep
            injection hstep with h
            subst h
            exact absurd rfl hne
          · rw [if_neg hv] at hstep
            injection hstep with h
            subst h
            exact activity_level_mem s hne
      · rw [if_neg hl] at hstep
        injection hstep with h
        subst h
        exact activity_level_mem s hne
  | timeout readRes =>
    simp only [loopStep] at hstep
    injection hstep with h
    subst h
    rcases timeoutStep_case readRes s hne with ⟨hdim, l, hrl, hlev⟩ | h2
    · exact Or.inl ⟨hdim, l, by rw [hrl], hlev⟩
    · exact Or.inr h2

/-- Witness for claim_C1_amended: an activity signal restoring the level from
20 to the requested 30 writes 30 in the same iteration. -/
theorem claim_C1_witness :
    ((⟨20, 30, false, true, 0⟩ : DimState).dimming = false ∧
       ∃ l, LoopEvent.signal (some 0) = LoopEvent.timeout (some l) ∧
         ((⟨30, 30, false, true, 0⟩ : DimState), ([30] : List Nat)).1.level = l) ∨
      ((⟨30, 30, false, true, 0⟩ : DimState), ([30] : List Nat)).1.level ∈
        ((⟨30, 30, false, true, 0⟩ : DimState), ([30] : List Nat)).2 ∨
      50 < ((⟨30, 30, false, true, 0⟩ : DimState), ([30] : List Nat)).1.level :=
  claim_C1_amended false (LoopEvent.signal (some 0)) ⟨20, 30, false, true, 0⟩
    (⟨30, 30, false, true, 0⟩, [30]) rfl (by decide)

end BlControl
